import Mathlib

/-!
Shallow embedding of the Todo CRUD core of the repository:
route handlers GET/POST (collection route) and PATCH/DELETE (item route),
the Prisma-backed store they call, and the Prisma client singleton module.
JavaScript runtime behaviour (JSON bodies, destructuring, parseInt,
exceptions caught by the surrounding try/catch) is modelled explicitly.
-/

/-- JSON values, as produced by `request.json()` and consumed by
`NextResponse.json`. -/
inductive Json where
  | null : Json
  | bool : Bool → Json
  | num : Int → Json
  | str : String → Json
  | arr : List Json → Json
  | obj : List (String × Json) → Json

/-- First value bound to key `k` in a JS object literal, `none` = absent. -/
def lookupField (k : String) : List (String × Json) → Option Json
  | [] => none
  | (k₀, v) :: rest => if k₀ = k then some v else lookupField k rest

/-- JS destructuring `const \x7b k \x7d = body`: throws a TypeError
(`Except.error`) when `body` is `null`; on a non-object the field is
`undefined` (`none`); on an object it is the field value when present. -/
def jsGetField (body : Json) (k : String) : Except Unit (Option Json) :=
  match body with
  | Json.null => Except.error ()
  | Json.obj fields => Except.ok (lookupField k fields)
  | _ => Except.ok none

/-- The POST title check `if (!title || typeof title !== a string)`:
passes exactly when the bound value is a string and is not the empty
string (the only falsy string). Returns the accepted raw title. -/
def validTitle : Option Json → Option String
  | some (Json.str t) => if t.isEmpty then none else some t
  | _ => none

/-- JS `String.prototype.trim()`: remove whitespace from both ends. -/
def trimJS (s : String) : String :=
  String.mk (((s.toList.dropWhile (fun c => c.isWhitespace)).reverse.dropWhile (fun c => c.isWhitespace)).reverse)

/-- Value of a character as a digit in base `radix` (JS `parseInt` digit
set: 0-9, a-z, A-Z), `none` when not a digit of that base. -/
def digitVal (radix : Nat) (c : Char) : Option Nat :=
  let raw :=
    if ('0' ≤ c ∧ c ≤ '9') then some (c.toNat - 48)
    else if ('a' ≤ c ∧ c ≤ 'z') then some (c.toNat - 87)
    else if ('A' ≤ c ∧ c ≤ 'Z') then some (c.toNat - 55)
    else none
  match raw with
  | some n => if n < radix then some n else none
  | none => none

/-- JS `parseInt(s)` (radix argument omitted): skip leading whitespace,
optional sign, optional 0x/0X hex prefix, then the longest run of digits;
`none` models NaN (no digits). Non-digit trailing characters are ignored. -/
def parseIntJS (s : String) : Option Int :=
  let cs := s.toList.dropWhile (fun c => c.isWhitespace)
  let signed :=
    match cs with
    | '-' :: rest => (true, rest)
    | '+' :: rest => (false, rest)
    | _ => (false, cs)
  let based :=
    match signed.2 with
    | '0' :: 'x' :: rest => (16, rest)
    | '0' :: 'X' :: rest => (16, rest)
    | _ => (10, signed.2)
  let digits := based.2.takeWhile (fun c => (digitVal based.1 c).isSome)
  if digits.isEmpty then none
  else
    let n := digits.foldl (fun acc c => acc * based.1 + (digitVal based.1 c).getD 0) 0
    some (if signed.1 then -(n : Int) else (n : Int))

/-- A row of the `todo` table (prisma/schema.prisma model Todo).
Timestamps are abstract ticks of a store clock. -/
structure Todo where
  id : Nat
  title : String
  completed : Bool
  createdAt : Nat
  updatedAt : Nat
deriving Repr, DecidableEq

/-- The persistent store: the rows, the auto-increment counter, and a
clock supplying `now()` for createdAt/updatedAt. -/
structure Store where
  todos : List Todo
  nextId : Nat
  clock : Nat
deriving Repr, DecidableEq

/-- A fresh database: no rows, auto-increment starts at 1. -/
def store0 : Store := { todos := [], nextId := 1, clock := 0 }

/-- JSON serialisation of a row, as returned by the handlers. -/
def todoToJson (t : Todo) : Json :=
  Json.obj [(("id"), Json.num (t.id : Int)), (("title"), Json.str t.title),
    (("completed"), Json.bool t.completed),
    (("createdAt"), Json.num (t.createdAt : Int)),
    (("updatedAt"), Json.num (t.updatedAt : Int))]

/-- An HTTP response: status code and JSON body. -/
structure Response where
  status : Nat
  body : Json

/-- `NextResponse.json(\x7b error: msg \x7d, \x7b status \x7d)`. -/
def respErr (status : Nat) (msg : String) : Response :=
  { status := status, body := Json.obj [(("error"), Json.str msg)] }

/-- `orderBy: \x7b createdAt: desc \x7d` — the row order of findMany. -/
def createdDescLE (a b : Todo) : Prop := b.createdAt ≤ a.createdAt

instance : DecidableRel createdDescLE := fun a b => Nat.decLe b.createdAt a.createdAt

instance : IsTotal Todo createdDescLE :=
  ⟨fun a b => (Nat.le_total b.createdAt a.createdAt).imp (fun h => h) (fun h => h)⟩

instance : IsTrans Todo createdDescLE :=
  ⟨fun _ _ _ h₁ h₂ => Nat.le_trans h₂ h₁⟩

/-- `prisma.todo.findMany(\x7b orderBy: \x7b createdAt: desc \x7d \x7d)`. -/
def findManyDesc (s : Store) : List Todo :=
  s.todos.insertionSort createdDescLE

/-- `prisma.todo.create(\x7b data: \x7b title \x7d \x7d)`: inserts a row with
store-assigned id and timestamps, completed defaulting to false. -/
def storeCreate (s : Store) (title : String) : Todo × Store :=
  let t : Todo :=
    { id := s.nextId, title := title, completed := false,
      createdAt := s.clock, updatedAt := s.clock }
  (t, { todos := s.todos ++ [t], nextId := s.nextId + 1, clock := s.clock + 1 })

/-- `prisma.todo.update(\x7b where: \x7b id \x7d, data: \x7b completed \x7d \x7d)`:
`none` models the P2025 record-not-found exception; otherwise sets
completed and refreshes updatedAt on the matching row. -/
def setCompleted (c : Bool) (now : Nat) (u : Todo) : Todo :=
  { u with completed := c, updatedAt := now }

def storeUpdate (s : Store) (i : Int) (c : Bool) : Option (Todo × Store) :=
  match s.todos.find? (fun t => ((t.id : Int) == i)) with
  | none => none
  | some t =>
    let updatedState : Store :=
      { s with
        todos := s.todos.map (fun u => if ((u.id : Int) == i) then setCompleted c s.clock u else u),
        clock := s.clock + 1 }
    some (setCompleted c s.clock t, updatedState)

/-- `prisma.todo.delete(\x7b where: \x7b id \x7d \x7d)`: `none` models the
P2025 record-not-found exception; otherwise removes the matching row. -/
def storeDelete (s : Store) (i : Int) : Option Store :=
  if s.todos.any (fun t => ((t.id : Int) == i)) then
    some { s with todos := s.todos.filter (fun t => !((t.id : Int) == i)), clock := s.clock + 1 }
  else none

/-- GET /api/todos. `fail` models a store-layer exception from findMany,
caught by the catch branch. -/
def GET (fail : Bool) (s : Store) : Response × Store :=
  if fail then (respErr 500 ("Failed to fetch todos"), s)
  else ({ status := 200, body := Json.arr ((findManyDesc s).map todoToJson) }, s)

/-- POST /api/todos. `body = none` models a `request.json()` parse
exception; `fail` models a store-layer exception from create. Both land
in the same catch branch. -/
def POST (body : Option Json) (fail : Bool) (s : Store) : Response × Store :=
  match body with
  | none => (respErr 500 ("Failed to create todo"), s)
  | some b =>
    match jsGetField b ("title") with
    | Except.error _ => (respErr 500 ("Failed to create todo"), s)
    | Except.ok titleV =>
      match validTitle titleV with
      | none => (respErr 400 ("Title is required"), s)
      | some title =>
        if fail then (respErr 500 ("Failed to create todo"), s)
        else
          let created := storeCreate s (trimJS title)
          ({ status := 201, body := todoToJson created.1 }, created.2)

/-- PATCH /api/todos/[id]. The id is validated before the body is read;
`body = none` models a `request.json()` parse exception; `fail` models a
store-layer exception; a P2025 not-found from update reaches the same
catch branch. -/
def PATCH (idStr : String) (body : Option Json) (fail : Bool) (s : Store) : Response × Store :=
  match parseIntJS idStr with
  | none => (respErr 400 ("Invalid todo ID"), s)
  | some todoId =>
    match body with
    | none => (respErr 500 ("Failed to update todo"), s)
    | some b =>
      match jsGetField b ("completed") with
      | Except.error _ => (respErr 500 ("Failed to update todo"), s)
      | Except.ok completedV =>
        match completedV with
        | some (Json.bool c) =>
          if fail then (respErr 500 ("Failed to update todo"), s)
          else
            match storeUpdate s todoId c with
            | none => (respErr 500 ("Failed to update todo"), s)
            | some result => ({ status := 200, body := todoToJson result.1 }, result.2)
        | _ => (respErr 400 ("Completed must be a boolean"), s)

/-- DELETE /api/todos/[id]. `fail` models a store-layer exception; a
P2025 not-found from delete reaches the same catch branch. -/
def DELETE (idStr : String) (fail : Bool) (s : Store) : Response × Store :=
  match parseIntJS idStr with
  | none => (respErr 400 ("Invalid todo ID"), s)
  | some todoId =>
    if fail then (respErr 500 ("Failed to delete todo"), s)
    else
      match storeDelete s todoId with
      | none => (respErr 500 ("Failed to delete todo"), s)
      | some removed => ({ status := 200, body := Json.obj [(("success"), Json.bool true)] }, removed)

/-- Events a process can experience: an access of the exported `prisma`
binding, or a development-mode module reload, which drops the module
scope but keeps `globalThis`. -/
inductive Ev where
  | access : Ev
  | reload : Ev
deriving Repr, DecidableEq

/-- State of the prisma singleton module inside one process: the
`globalForPrisma.prisma` slot on `globalThis`, the module-scope value of
the exported `prisma` constant (`none` = module not evaluated), and a
counter numbering `new PrismaClient()` constructions. -/
structure PrismaState where
  globalSlot : Option Nat
  moduleVal : Option Nat
  nextInstance : Nat
deriving Repr, DecidableEq

/-- Process start: nothing constructed, module not evaluated. -/
def prismaInit : PrismaState :=
  { globalSlot := none, moduleVal := none, nextInstance := 0 }

/-- Evaluation of the module body:
`export const prisma = globalForPrisma.prisma ?? new PrismaClient()` and
`if (process.env.NODE_ENV !== production) globalForPrisma.prisma = prisma`. -/
def evalModule (dev : Bool) (st : PrismaState) : PrismaState :=
  let inst := st.globalSlot.getD st.nextInstance
  { globalSlot := if dev then some inst else st.globalSlot,
    moduleVal := some inst,
    nextInstance := if st.globalSlot.isSome then st.nextInstance else st.nextInstance + 1 }

/-- Reading the exported `prisma` binding: evaluates the module first if
it is not in the module cache, then returns the bound instance. -/
def accessPrisma (dev : Bool) (st : PrismaState) : Nat × PrismaState :=
  match st.moduleVal with
  | some i => (i, st)
  | none =>
    let st₁ := evalModule dev st
    (st₁.moduleVal.getD 0, st₁)

/-- A hot reload drops the module cache; `globalThis` survives. -/
def reloadModule (st : PrismaState) : PrismaState :=
  { st with moduleVal := none }

/-- Run a trace of events, collecting the instance returned by each
access. -/
def runPrisma (dev : Bool) : List Ev → PrismaState → List Nat × PrismaState
  | [], st => ([], st)
  | Ev.access :: evs, st =>
    let r := accessPrisma dev st
    let rest := runPrisma dev evs r.2
    (r.1 :: rest.1, rest.2)
  | Ev.reload :: evs, st => runPrisma dev evs (reloadModule st)


/-- Request body for Create with the given title value. -/
def titleBody (t : String) : Json := Json.obj [(("title"), Json.str t)]

/-- Request body for SetCompleted with the given boolean. -/
def completedBody (c : Bool) : Json := Json.obj [(("completed"), Json.bool c)]

/-- The row inserted by a successful Create from raw title `raw`. -/
def createdRec (s : Store) (raw : String) : Todo :=
  { id := s.nextId, title := trimJS raw, completed := false,
    createdAt := s.clock, updatedAt := s.clock }

lemma POST_ok (s : Store) (b : Json) (t : String)
    (hb : jsGetField b ("title") = Except.ok (some (Json.str t)))
    (ht : t.isEmpty = false) :
    POST (some b) false s =
      ({ status := 201, body := todoToJson (createdRec s t) },
       { todos := s.todos ++ [createdRec s t], nextId := s.nextId + 1, clock := s.clock + 1 }) := by
  simp [POST, hb, validTitle, ht, storeCreate, createdRec]

/-- C1 counterexample: Create of a whitespace-only title does not fail;
it answers 201 and persists the empty title, contradicting the claimed
trim-emptiness validation and the claim that no persisted title is ever
empty or whitespace-only. -/
theorem C1_counterexample :
    (POST (some (titleBody ("   "))) false store0).1.status = 201 ∧
    (POST (some (titleBody ("   "))) false store0).2.todos =
      [{ id := 1, title := (""), completed := false, createdAt := 0, updatedAt := 0 }] := by
  exact ⟨rfl, rfl⟩

/-- C1 (amended): Create fails with the 400 ValidationError exactly when
the title field read from the body is absent, not a string, or the empty
string — the emptiness check precedes trimming, so a whitespace-only
title passes; on success the trimmed title (possibly empty) is what gets
persisted. -/
theorem C1_amended (b : Json) (s : Store) :
    ((POST (some b) false s).1.status = 400 ↔
      ∃ v, jsGetField b ("title") = Except.ok v ∧ validTitle v = none) ∧
    (∀ t, jsGetField b ("title") = Except.ok (some (Json.str t)) → t.isEmpty = false →
      (POST (some b) false s).1.status = 201 ∧
      (POST (some b) false s).2.todos = s.todos ++ [createdRec s t]) := by
  constructor
  · cases hb : jsGetField b ("title") with
    | error e => simp [POST, hb, respErr]
    | ok v =>
      cases hv : validTitle v with
      | none => simp [POST, hb, hv, respErr]
      | some t => simp [POST, hb, hv, storeCreate, respErr]
  · intro t hb ht
    rw [POST_ok s b t hb ht]
    exact ⟨rfl, rfl⟩

/-- C1 amended witness at a concrete input: title with surrounding
whitespace is accepted and stored trimmed. -/
theorem C1_amended_witness :
    jsGetField (titleBody ("  a  ")) ("title") = Except.ok (some (Json.str ("  a  "))) ∧
    ("  a  ").isEmpty = false ∧
    ((POST (some (titleBody ("  a  "))) false store0).1.status = 201 ∧
     (POST (some (titleBody ("  a  "))) false store0).2.todos =
       store0.todos ++ [createdRec store0 ("  a  ")]) :=
  ⟨rfl, rfl, (C1_amended (titleBody ("  a  ")) store0).2 ("  a  ") rfl rfl⟩

/-- C9 counterexample: a SetCompleted request whose body is invalid JSON
but whose id does not parse is answered with the 400 ValidationError of
the id check, not with the generic 500, because the id is validated
before the body is read. -/
theorem C9_counterexample :
    (PATCH ("abc") none false store0).1.status = 400 ∧
    (PATCH ("abc") none false store0).1.body =
      Json.obj [(("error"), Json.str ("Invalid todo ID"))] := by
  exact ⟨rfl, rfl⟩

/-- C9 (amended): a Create request whose body is not valid JSON is always
answered with the generic 500 InternalError; a SetCompleted request whose
body is not valid JSON is answered with the generic 500 provided its id
parses as an integer — when the id does not parse, the 400 ValidationError
of the id check wins because id validation precedes body parsing. -/
theorem C9_amended (s : Store) (fail : Bool) :
    POST none fail s = (respErr 500 ("Failed to create todo"), s) ∧
    (∀ idStr n, parseIntJS idStr = some n →
      PATCH idStr none fail s = (respErr 500 ("Failed to update todo"), s)) ∧
    (∀ idStr, parseIntJS idStr = none →
      PATCH idStr none fail s = (respErr 400 ("Invalid todo ID"), s)) := by
  refine ⟨rfl, ?_, ?_⟩
  · intro idStr n h
    simp [PATCH, h]
  · intro idStr h
    simp [PATCH, h]

/-- C9 amended witness at concrete inputs: id 7 parses, id abc does not. -/
theorem C9_amended_witness :
    parseIntJS ("7") = some 7 ∧ parseIntJS ("abc") = none ∧
    (POST none true store0 = (respErr 500 ("Failed to create todo"), store0) ∧
     (∀ idStr n, parseIntJS idStr = some n →
       PATCH idStr none true store0 = (respErr 500 ("Failed to update todo"), store0)) ∧
     (∀ idStr, parseIntJS idStr = none →
       PATCH idStr none true store0 = (respErr 400 ("Invalid todo ID"), store0))) :=
  ⟨by decide, by decide, C9_amended store0 true⟩

/-- C2: SetCompleted answers the 400 ValidationError when the id does not
parse as an integer or when the supplied completed value is not a
boolean; Delete answers the 400 ValidationError when the id does not
parse as an integer. -/
theorem C2_validation (idStr : String) (body : Option Json) (fail : Bool) (s : Store) :
    (parseIntJS idStr = none →
      (PATCH idStr body fail s).1 = respErr 400 ("Invalid todo ID") ∧
      (DELETE idStr fail s).1 = respErr 400 ("Invalid todo ID")) ∧
    (∀ n b v, parseIntJS idStr = some n → body = some b →
      jsGetField b ("completed") = Except.ok v → (∀ c, v ≠ some (Json.bool c)) →
      (PATCH idStr body fail s).1 = respErr 400 ("Completed must be a boolean")) := by
  constructor
  · intro h
    exact ⟨by simp [PATCH, h], by simp [DELETE, h]⟩
  · rintro n b v hn rfl hv hnb
    cases v with
    | none => simp [PATCH, hn, hv]
    | some j =>
      cases j with
      | bool c => exact absurd rfl (hnb c)
      | null => simp [PATCH, hn, hv]
      | num m => simp [PATCH, hn, hv]
      | str t => simp [PATCH, hn, hv]
      | arr l => simp [PATCH, hn, hv]
      | obj l => simp [PATCH, hn, hv]

/-- C2 witness at concrete inputs: a non-numeric id and a string-typed
completed value are both rejected with 400. -/
theorem C2_validation_witness :
    parseIntJS ("abc") = none ∧
    ((PATCH ("abc") none false store0).1 = respErr 400 ("Invalid todo ID") ∧
     (DELETE ("abc") false store0).1 = respErr 400 ("Invalid todo ID")) ∧
    (PATCH ("1") (some (Json.obj [(("completed"), Json.str ("true"))])) false store0).1 =
      respErr 400 ("Completed must be a boolean") :=
  ⟨by decide,
   (C2_validation ("abc") none false store0).1 (by decide),
   (C2_validation ("1") (some (Json.obj [(("completed"), Json.str ("true"))])) false store0).2
     1 (Json.obj [(("completed"), Json.str ("true"))]) (some (Json.str ("true")))
     (by decide) rfl rfl (by intro c h; simp at h)⟩

/-- C6: in every handler all validation precedes any store call, and a
validation failure answers 400 immediately with the store state
unchanged: the whole outcome is independent of the store failure flag
and returns the input state. -/
theorem C6_fail_fast (s : Store) (fail : Bool) :
    (∀ b v, jsGetField b ("title") = Except.ok v → validTitle v = none →
      POST (some b) fail s = (respErr 400 ("Title is required"), s)) ∧
    (∀ idStr body, parseIntJS idStr = none →
      PATCH idStr body fail s = (respErr 400 ("Invalid todo ID"), s) ∧
      DELETE idStr fail s = (respErr 400 ("Invalid todo ID"), s)) ∧
    (∀ idStr n b v, parseIntJS idStr = some n →
      jsGetField b ("completed") = Except.ok v → (∀ c, v ≠ some (Json.bool c)) →
      PATCH idStr (some b) fail s = (respErr 400 ("Completed must be a boolean"), s)) := by
  refine ⟨?_, ?_, ?_⟩
  · intro b v hb hv
    simp [POST, hb, hv]
  · intro idStr body h
    exact ⟨by simp [PATCH, h], by simp [DELETE, h]⟩
  · intro idStr n b v hn hv hnb
    cases v with
    | none => simp [PATCH, hn, hv]
    | some j =>
      cases j with
      | bool c => exact absurd rfl (hnb c)
      | null => simp [PATCH, hn, hv]
      | num m => simp [PATCH, hn, hv]
      | str t => simp [PATCH, hn, hv]
      | arr l => simp [PATCH, hn, hv]
      | obj l => simp [PATCH, hn, hv]

/-- C6 witness at concrete inputs: empty title, non-numeric id, and
string-typed completed each answer 400 with the store untouched even
when the store would fail. -/
theorem C6_fail_fast_witness :
    jsGetField (titleBody ("")) ("title") = Except.ok (some (Json.str (""))) ∧
    validTitle (some (Json.str (""))) = none ∧
    POST (some (titleBody (""))) true store0 = (respErr 400 ("Title is required"), store0) ∧
    parseIntJS ("zz") = none ∧
    (PATCH ("zz") none true store0 = (respErr 400 ("Invalid todo ID"), store0) ∧
     DELETE ("zz") true store0 = (respErr 400 ("Invalid todo ID"), store0)) :=
  ⟨rfl, rfl,
   (C6_fail_fast store0 true).1 (titleBody ("")) (some (Json.str (""))) rfl rfl,
   by decide,
   (C6_fail_fast store0 true).2.1 ("zz") none (by decide)⟩

/-- A store with two rows, ids 5 and 7, used as a concrete scenario. -/
def todo5 : Todo := { id := 5, title := ("five"), completed := false, createdAt := 0, updatedAt := 0 }

def todo7 : Todo := { id := 7, title := ("seven"), completed := false, createdAt := 1, updatedAt := 1 }

def store57 : Store := { todos := [todo5, todo7], nextId := 8, clock := 2 }

/-- C10: the id check rejects with the invalid-id 400 exactly when JS
integer-prefix parsing yields NaN; an id string with a leading digit run,
such as 5abc or 5.9, is accepted and the handler operates on the record
whose id equals that leading integer prefix. -/
theorem C10_prefix_id (idStr : String) (body : Option Json) (fail : Bool) (s : Store) :
    ((PATCH idStr body fail s).1 = respErr 400 ("Invalid todo ID") ↔ parseIntJS idStr = none) ∧
    ((DELETE idStr fail s).1 = respErr 400 ("Invalid todo ID") ↔ parseIntJS idStr = none) ∧
    parseIntJS ("5abc") = some 5 ∧
    parseIntJS ("5.9") = some 5 ∧
    (∀ n, parseIntJS idStr = some n →
      DELETE idStr false s =
        (match storeDelete s n with
         | none => (respErr 500 ("Failed to delete todo"), s)
         | some s₂ => ({ status := 200, body := Json.obj [(("success"), Json.bool true)] }, s₂))) ∧
    (∀ n c, parseIntJS idStr = some n →
      PATCH idStr (some (completedBody c)) false s =
        (match storeUpdate s n c with
         | none => (respErr 500 ("Failed to update todo"), s)
         | some r => ({ status := 200, body := todoToJson r.1 }, r.2))) ∧
    (DELETE ("5abc") false store57).1.status = 200 ∧
    (DELETE ("5abc") false store57).2.todos = [todo7] := by
  refine ⟨?_, ?_, by decide, by decide, ?_, ?_, rfl, by decide⟩
  · cases hp : parseIntJS idStr with
    | none => simp [PATCH, hp]
    | some n =>
      simp only [hp, reduceCtorEq, iff_false]
      cases body with
      | none => simp [PATCH, hp, respErr]
      | some b =>
        cases hb : jsGetField b ("completed") with
        | error e => simp [PATCH, hp, hb, respErr]
        | ok v =>
          match v with
          | none => simp [PATCH, hp, hb, respErr]
          | some Json.null => simp [PATCH, hp, hb, respErr]
          | some (Json.num m) => simp [PATCH, hp, hb, respErr]
          | some (Json.str t) => simp [PATCH, hp, hb, respErr]
          | some (Json.arr l) => simp [PATCH, hp, hb, respErr]
          | some (Json.obj l) => simp [PATCH, hp, hb, respErr]
          | some (Json.bool c) =>
            cases fail with
            | true => simp [PATCH, hp, hb, respErr]
            | false =>
              cases hu : storeUpdate s n c with
              | none => simp [PATCH, hp, hb, hu, respErr]
              | some r => simp [PATCH, hp, hb, hu, respErr, todoToJson]
  · cases hp : parseIntJS idStr with
    | none => simp [DELETE, hp]
    | some n =>
      simp only [hp, reduceCtorEq, iff_false]
      cases fail with
      | true => simp [DELETE, hp, respErr]
      | false =>
        cases hd : storeDelete s n with
        | none => simp [DELETE, hp, hd, respErr]
        | some s₂ => simp [DELETE, hp, hd, respErr]
  · intro n h
    simp [DELETE, h]
  · intro n c h
    simp [PATCH, h, completedBody, jsGetField, lookupField]

/-- C10 witness at concrete inputs: 5abc parses to 5 and the handlers
act on row 5 of the two-row store. -/
theorem C10_prefix_id_witness :
    parseIntJS ("5abc") = some 5 ∧
    ((PATCH ("5abc") none false store57).1 = respErr 400 ("Invalid todo ID") ↔
      parseIntJS ("5abc") = none) ∧
    DELETE ("5abc") false store57 =
      (match storeDelete store57 5 with
       | none => (respErr 500 ("Failed to delete todo"), store57)
       | some s₂ => ({ status := 200, body := Json.obj [(("success"), Json.bool true)] }, s₂)) :=
  ⟨by decide,
   (C10_prefix_id ("5abc") none false store57).1,
   (C10_prefix_id ("5abc") none false store57).2.2.2.2.1 5 (by decide)⟩

lemma DELETE_found (idStr : String) (n : Int) (s : Store)
    (hparse : parseIntJS idStr = some n)
    (hex : s.todos.any (fun t => ((t.id : Int) == n)) = true) :
    DELETE idStr false s =
      ({ status := 200, body := Json.obj [(("success"), Json.bool true)] },
       { s with todos := s.todos.filter (fun t => !((t.id : Int) == n)), clock := s.clock + 1 }) := by
  simp [DELETE, hparse, storeDelete, hex]

/-- C3: deleting an existing id answers 200 with the success flag and
permanently removes the row: a subsequent SetCompleted on the same id is
answered with the generic 500, and neither the store nor the List output
contains that id afterwards. -/
theorem C3_delete_final (idStr : String) (n : Int) (s : Store)
    (hparse : parseIntJS idStr = some n)
    (hex : s.todos.any (fun t => ((t.id : Int) == n)) = true) :
    (DELETE idStr false s).1.status = 200 ∧
    (DELETE idStr false s).1.body = Json.obj [(("success"), Json.bool true)] ∧
    (PATCH idStr (some (completedBody true)) false (DELETE idStr false s).2).1 =
      respErr 500 ("Failed to update todo") ∧
    (∀ t ∈ (DELETE idStr false s).2.todos, (t.id : Int) ≠ n) ∧
    (∀ t ∈ findManyDesc (DELETE idStr false s).2, (t.id : Int) ≠ n) := by
  rw [DELETE_found idStr n s hparse hex]
  have hnot : ∀ t ∈ s.todos.filter (fun t => !((t.id : Int) == n)), (t.id : Int) ≠ n := by
    intro t ht
    have := (List.mem_filter.mp ht).2
    simpa using this
  have hfind : (s.todos.filter (fun t => !((t.id : Int) == n))).find?
      (fun t => ((t.id : Int) == n)) = none := by
    rw [List.find?_eq_none]
    intro t ht
    simpa using hnot t ht
  refine ⟨rfl, rfl, ?_, hnot, ?_⟩
  · simp [PATCH, hparse, completedBody, jsGetField, lookupField, storeUpdate, hfind]
  · intro t ht
    exact hnot t (by simpa [findManyDesc] using ht)

/-- C3 witness: deleting id 5 from the two-row store. -/
theorem C3_delete_final_witness :
    parseIntJS ("5") = some 5 ∧
    store57.todos.any (fun t => ((t.id : Int) == 5)) = true ∧
    ((DELETE ("5") false store57).1.status = 200 ∧
     (DELETE ("5") false store57).1.body = Json.obj [(("success"), Json.bool true)] ∧
     (PATCH ("5") (some (completedBody true)) false (DELETE ("5") false store57).2).1 =
       respErr 500 ("Failed to update todo") ∧
     (∀ t ∈ (DELETE ("5") false store57).2.todos, (t.id : Int) ≠ 5) ∧
     (∀ t ∈ findManyDesc (DELETE ("5") false store57).2, (t.id : Int) ≠ 5)) :=
  ⟨by decide, by decide, C3_delete_final ("5") 5 store57 (by decide) (by decide)⟩

lemma find_eq_of_nodup_ids (l : List Todo) (n : Int) (t0 : Todo)
    (hnodup : (l.map Todo.id).Nodup) (hmem : t0 ∈ l) (hid : (t0.id : Int) = n) :
    l.find? (fun t => ((t.id : Int) == n)) = some t0 := by
  induction l with
  | nil => cases hmem
  | cons h tl ih =>
    rw [List.map_cons] at hnodup
    have hnd := List.nodup_cons.mp hnodup
    rcases List.mem_cons.mp hmem with rfl | hmem₂
    · have : ((t0.id : Int) == n) = true := by simp [hid]
      simp [List.find?_cons_of_pos, this]
    · have hne : ((h.id : Int) == n) = false := by
        rw [beq_eq_false_iff_ne]
        intro hcontra
        have hids : h.id = t0.id := by
          have : (h.id : Int) = (t0.id : Int) := by rw [hcontra, hid]
          exact_mod_cast this
        exact hnd.1 (hids ▸ List.mem_map_of_mem Todo.id hmem₂)
      rw [List.find?_cons_of_neg _ (by simp [hne]), ih hnd.2 hmem₂]

/-- C5: SetCompleted on an existing id (in a store with unique ids)
answers 200 with exactly that row updated: its completed becomes the
supplied value, its updatedAt becomes the current time, its id, title
and createdAt are kept, every row with a different id is mapped to
itself, and no other operation ever modifies an existing row in place
(Create only appends, List leaves the store as is, Delete only filters). -/
theorem C5_patch_frame (idStr : String) (n : Int) (c : Bool) (s : Store) (t0 : Todo)
    (hparse : parseIntJS idStr = some n)
    (hnodup : (s.todos.map Todo.id).Nodup)
    (hmem : t0 ∈ s.todos) (hid : (t0.id : Int) = n) :
    (PATCH idStr (some (completedBody c)) false s).1.status = 200 ∧
    (PATCH idStr (some (completedBody c)) false s).1.body =
      todoToJson (setCompleted c s.clock t0) ∧
    (PATCH idStr (some (completedBody c)) false s).2.todos =
      s.todos.map (fun u => if ((u.id : Int) == n) then setCompleted c s.clock u else u) ∧
    (setCompleted c s.clock t0).id = t0.id ∧
    (setCompleted c s.clock t0).title = t0.title ∧
    (setCompleted c s.clock t0).createdAt = t0.createdAt ∧
    (setCompleted c s.clock t0).completed = c ∧
    (setCompleted c s.clock t0).updatedAt = s.clock ∧
    (∀ u ∈ s.todos, (u.id : Int) ≠ n →
      (if ((u.id : Int) == n) then setCompleted c s.clock u else u) = u) ∧
    (∀ b f s₂, ∃ rest, (POST b f s₂).2.todos = s₂.todos ++ rest) ∧
    (∀ f s₂, (GET f s₂).2 = s₂) ∧
    (∀ i f s₂, ∃ p, (DELETE i f s₂).2.todos = s₂.todos.filter p) := by
  have hfind := find_eq_of_nodup_ids s.todos n t0 hnodup hmem hid
  have hpatch : PATCH idStr (some (completedBody c)) false s =
      ({ status := 200, body := todoToJson (setCompleted c s.clock t0) },
       { s with
         todos := s.todos.map (fun u => if ((u.id : Int) == n) then setCompleted c s.clock u else u),
         clock := s.clock + 1 }) := by
    simp [PATCH, hparse, completedBody, jsGetField, lookupField, storeUpdate, hfind]
  rw [hpatch]
  refine ⟨rfl, rfl, rfl, rfl, rfl, rfl, rfl, rfl, ?_, ?_, ?_, ?_⟩
  · intro u _ hu
    simp [beq_eq_false_iff_ne.mpr hu]
  · intro b f s₂
    cases b with
    | none => exact ⟨[], by simp [POST]⟩
    | some bj =>
      cases hb : jsGetField bj ("title") with
      | error e => exact ⟨[], by simp [POST, hb]⟩
      | ok v =>
        cases hv : validTitle v with
        | none => exact ⟨[], by simp [POST, hb, hv]⟩
        | some t =>
          cases f with
          | true => exact ⟨[], by simp [POST, hb, hv]⟩
          | false =>
            exact ⟨[createdRec s₂ t], by simp [POST, hb, hv, storeCreate, createdRec]⟩
  · intro f s₂
    cases f with
    | true => rfl
    | false => rfl
  · intro i f s₂
    cases hp : parseIntJS i with
    | none => exact ⟨fun _ => true, by simp [DELETE, hp]⟩
    | some m =>
      cases f with
      | true => exact ⟨fun _ => true, by simp [DELETE, hp]⟩
      | false =>
        cases hd : s₂.todos.any (fun t => ((t.id : Int) == m)) with
        | true =>
          exact ⟨fun t => !((t.id : Int) == m), by simp [DELETE, hp, storeDelete, hd]⟩
        | false => exact ⟨fun _ => true, by simp [DELETE, hp, storeDelete, hd]⟩

/-- C5 witness: toggling row 5 of the two-row store to completed. -/
theorem C5_patch_frame_witness :
    parseIntJS ("5") = some 5 ∧
    (store57.todos.map Todo.id).Nodup ∧
    todo5 ∈ store57.todos ∧
    ((todo5.id : Int) = 5) ∧
    ((PATCH ("5") (some (completedBody true)) false store57).1.status = 200 ∧
     (PATCH ("5") (some (completedBody true)) false store57).1.body =
       todoToJson (setCompleted true store57.clock todo5) ∧
     (PATCH ("5") (some (completedBody true)) false store57).2.todos =
       store57.todos.map
         (fun u => if ((u.id : Int) == 5) then setCompleted true store57.clock u else u) ∧
     (setCompleted true store57.clock todo5).id = todo5.id ∧
     (setCompleted true store57.clock todo5).title = todo5.title ∧
     (setCompleted true store57.clock todo5).createdAt = todo5.createdAt ∧
     (setCompleted true store57.clock todo5).completed = true ∧
     (setCompleted true store57.clock todo5).updatedAt = store57.clock ∧
     (∀ u ∈ store57.todos, (u.id : Int) ≠ 5 →
       (if ((u.id : Int) == 5) then setCompleted true store57.clock u else u) = u) ∧
     (∀ b f s₂, ∃ rest, (POST b f s₂).2.todos = s₂.todos ++ rest) ∧
     (∀ f s₂, (GET f s₂).2 = s₂) ∧
     (∀ i f s₂, ∃ p, (DELETE i f s₂).2.todos = s₂.todos.filter p)) :=
  ⟨by decide, by decide, by decide, by decide,
   C5_patch_frame ("5") 5 true store57 todo5 (by decide) (by decide) (by decide) (by decide)⟩

lemma sorted_exists_indices (l : List Todo) (hs : List.Sorted createdDescLE l)
    (x y : Todo) (hx : x ∈ l) (hy : y ∈ l) (hlt : x.createdAt < y.createdAt) :
    ∃ i j : Fin l.length, (i : Nat) < (j : Nat) ∧ l.get i = y ∧ l.get j = x := by
  obtain ⟨ix, hxg⟩ := List.mem_iff_get.mp hx
  obtain ⟨iy, hyg⟩ := List.mem_iff_get.mp hy
  rcases lt_trichotomy (ix : Nat) (iy : Nat) with h | h | h
  · exfalso
    have hrel : createdDescLE (l.get ix) (l.get iy) := hs.rel_get_of_lt h
    rw [hxg, hyg] at hrel
    exact absurd hlt (not_lt.mpr hrel)
  · exfalso
    have hix : ix = iy := Fin.ext h
    rw [hix, hyg] at hxg
    rw [hxg] at hlt
    exact lt_irrefl _ hlt
  · exact ⟨iy, ix, h, hyg, hxg⟩

/-- C4: List takes no input, answers 200 with the full row set ordered
by createdAt descending (a sorted permutation of the store), leaves the
store unchanged, and on store failure answers the generic 500 with no
partial results; after Create(A) then Create(B) the B row appears
strictly before the A row in the List output. -/
theorem C4_list_order (s : Store) (a b : String) :
    GET true s = (respErr 500 ("Failed to fetch todos"), s) ∧
    (GET false s).1.status = 200 ∧
    (GET false s).1.body = Json.arr ((findManyDesc s).map todoToJson) ∧
    (GET false s).2 = s ∧
    List.Perm (findManyDesc s) s.todos ∧
    List.Sorted createdDescLE (findManyDesc s) ∧
    (a.isEmpty = false → b.isEmpty = false →
      ∃ i j :
        Fin (findManyDesc (POST (some (titleBody b)) false
              (POST (some (titleBody a)) false s).2).2).length,
        (i : Nat) < (j : Nat) ∧
        (findManyDesc (POST (some (titleBody b)) false
            (POST (some (titleBody a)) false s).2).2).get i =
          createdRec (POST (some (titleBody a)) false s).2 b ∧
        (findManyDesc (POST (some (titleBody b)) false
            (POST (some (titleBody a)) false s).2).2).get j = createdRec s a) := by
  refine ⟨rfl, rfl, rfl, rfl, List.perm_insertionSort createdDescLE s.todos,
    List.sorted_insertionSort createdDescLE s.todos, ?_⟩
  intro ha hb
  have hga : jsGetField (titleBody a) ("title") = Except.ok (some (Json.str a)) := by
    simp [titleBody, jsGetField, lookupField]
  have hgb : jsGetField (titleBody b) ("title") = Except.ok (some (Json.str b)) := by
    simp [titleBody, jsGetField, lookupField]
  have h₁ := POST_ok s (titleBody a) a hga ha
  have h₂ := POST_ok (POST (some (titleBody a)) false s).2 (titleBody b) b hgb hb
  have hmemA : createdRec s a ∈
      (POST (some (titleBody b)) false (POST (some (titleBody a)) false s).2).2.todos := by
    rw [h₂, h₁]
    simp
  have hmemB : createdRec (POST (some (titleBody a)) false s).2 b ∈
      (POST (some (titleBody b)) false (POST (some (titleBody a)) false s).2).2.todos := by
    rw [h₂]
    simp
  have hclock : (POST (some (titleBody a)) false s).2.clock = s.clock + 1 := by
    rw [h₁]
  have hlt : (createdRec s a).createdAt <
      (createdRec (POST (some (titleBody a)) false s).2 b).createdAt := by
    simp [createdRec, hclock]
  exact sorted_exists_indices _
    (List.sorted_insertionSort createdDescLE _) _ _
    (by simpa [findManyDesc] using hmemA) (by simpa [findManyDesc] using hmemB) hlt

/-- C4 witness: two creations on the empty store; the second row is
listed before the first. -/
theorem C4_list_order_witness :
    ("A").isEmpty = false ∧ ("B").isEmpty = false ∧
    (GET true store0 = (respErr 500 ("Failed to fetch todos"), store0) ∧
     (GET false store0).1.status = 200 ∧
     (GET false store0).1.body = Json.arr ((findManyDesc store0).map todoToJson) ∧
     (GET false store0).2 = store0 ∧
     List.Perm (findManyDesc store0) store0.todos ∧
     List.Sorted createdDescLE (findManyDesc store0) ∧
     (("A").isEmpty = false → ("B").isEmpty = false →
       ∃ i j :
         Fin (findManyDesc (POST (some (titleBody ("B"))) false
               (POST (some (titleBody ("A"))) false store0).2).2).length,
         (i : Nat) < (j : Nat) ∧
         (findManyDesc (POST (some (titleBody ("B"))) false
             (POST (some (titleBody ("A"))) false store0).2).2).get i =
           createdRec (POST (some (titleBody ("A"))) false store0).2 ("B") ∧
         (findManyDesc (POST (some (titleBody ("B"))) false
             (POST (some (titleBody ("A"))) false store0).2).2).get j =
           createdRec store0 ("A"))) :=
  ⟨rfl, rfl, C4_list_order store0 ("A") ("B")⟩

lemma GET_shape (fail : Bool) (s : Store) :
    ((GET fail s).1.status = 200 ∧
      (GET fail s).1.body = Json.arr ((findManyDesc s).map todoToJson)) ∨
    (fail = true ∧ (GET fail s).1 = respErr 500 ("Failed to fetch todos")) := by
  cases fail with
  | true => exact Or.inr ⟨rfl, rfl⟩
  | false => exact Or.inl ⟨rfl, rfl⟩

lemma POST_shape (body : Option Json) (fail : Bool) (s : Store) :
    (POST body fail s).1 = respErr 400 ("Title is required") ∨
    (POST body fail s).1 = respErr 500 ("Failed to create todo") ∨
    (fail = false ∧ ∃ t, (POST body fail s).1 = { status := 201, body := todoToJson t }) := by
  cases body with
  | none => exact Or.inr (Or.inl rfl)
  | some b =>
    cases hb : jsGetField b ("title") with
    | error e => exact Or.inr (Or.inl (by simp [POST, hb]))
    | ok v =>
      cases hv : validTitle v with
      | none => exact Or.inl (by simp [POST, hb, hv])
      | some t =>
        cases fail with
        | true => exact Or.inr (Or.inl (by simp [POST, hb, hv]))
        | false =>
          exact Or.inr (Or.inr ⟨rfl, (storeCreate s (trimJS t)).1, by simp [POST, hb, hv]⟩)

lemma PATCH_shape (idStr : String) (body : Option Json) (fail : Bool) (s : Store) :
    (PATCH idStr body fail s).1 = respErr 400 ("Invalid todo ID") ∨
    (PATCH idStr body fail s).1 = respErr 400 ("Completed must be a boolean") ∨
    (PATCH idStr body fail s).1 = respErr 500 ("Failed to update todo") ∨
    (fail = false ∧ ∃ t, (PATCH idStr body fail s).1 = { status := 200, body := todoToJson t }) := by
  cases hp : parseIntJS idStr with
  | none => exact Or.inl (by simp [PATCH, hp])
  | some n =>
    cases body with
    | none => exact Or.inr (Or.inr (Or.inl (by simp [PATCH, hp])))
    | some b =>
      cases hb : jsGetField b ("completed") with
      | error e => exact Or.inr (Or.inr (Or.inl (by simp [PATCH, hp, hb])))
      | ok v =>
        match v with
        | none => exact Or.inr (Or.inl (by simp [PATCH, hp, hb]))
        | some Json.null => exact Or.inr (Or.inl (by simp [PATCH, hp, hb]))
        | some (Json.num m) => exact Or.inr (Or.inl (by simp [PATCH, hp, hb]))
        | some (Json.str t) => exact Or.inr (Or.inl (by simp [PATCH, hp, hb]))
        | some (Json.arr l) => exact Or.inr (Or.inl (by simp [PATCH, hp, hb]))
        | some (Json.obj l) => exact Or.inr (Or.inl (by simp [PATCH, hp, hb]))
        | some (Json.bool c) =>
          cases fail with
          | true => exact Or.inr (Or.inr (Or.inl (by simp [PATCH, hp, hb])))
          | false =>
            cases hu : storeUpdate s n c with
            | none => exact Or.inr (Or.inr (Or.inl (by simp [PATCH, hp, hb, hu])))
            | some r =>
              exact Or.inr (Or.inr (Or.inr ⟨rfl, r.1, by simp [PATCH, hp, hb, hu]⟩))

lemma DELETE_shape (idStr : String) (fail : Bool) (s : Store) :
    (DELETE idStr fail s).1 = respErr 400 ("Invalid todo ID") ∨
    (DELETE idStr fail s).1 = respErr 500 ("Failed to delete todo") ∨
    (fail = false ∧
      (DELETE idStr fail s).1 =
        { status := 200, body := Json.obj [(("success"), Json.bool true)] }) := by
  cases hp : parseIntJS idStr with
  | none => exact Or.inl (by simp [DELETE, hp])
  | some n =>
    cases fail with
    | true => exact Or.inr (Or.inl (by simp [DELETE, hp]))
    | false =>
      cases hd : storeDelete s n with
      | none => exact Or.inr (Or.inl (by simp [DELETE, hp, hd]))
      | some s₂ => exact Or.inr (Or.inr ⟨rfl, by simp [DELETE, hp, hd]⟩)

/-- C7: every handler call terminates in either a well-formed success
payload (row array, single row JSON, or the success flag object, with
status 200 or 201) or a well-formed single-key error object with status
400 or 500; when the store layer throws, the outcome is one of those
error responses — validation 400 or the generic 500 — never a success. -/
theorem C7_total_wellformed (fail : Bool) (s : Store) (body : Option Json) (idStr : String) :
    (((GET fail s).1.status = 200 ∧
        (GET fail s).1.body = Json.arr ((findManyDesc s).map todoToJson)) ∨
      (GET fail s).1 = respErr 500 ("Failed to fetch todos")) ∧
    (fail = true → (GET fail s).1 = respErr 500 ("Failed to fetch todos")) ∧
    ((POST body fail s).1 = respErr 400 ("Title is required") ∨
      (POST body fail s).1 = respErr 500 ("Failed to create todo") ∨
      ((POST body fail s).1.status = 201 ∧ ∃ t, (POST body fail s).1.body = todoToJson t)) ∧
    (fail = true →
      (POST body fail s).1 = respErr 400 ("Title is required") ∨
      (POST body fail s).1 = respErr 500 ("Failed to create todo")) ∧
    ((PATCH idStr body fail s).1 = respErr 400 ("Invalid todo ID") ∨
      (PATCH idStr body fail s).1 = respErr 400 ("Completed must be a boolean") ∨
      (PATCH idStr body fail s).1 = respErr 500 ("Failed to update todo") ∨
      ((PATCH idStr body fail s).1.status = 200 ∧
        ∃ t, (PATCH idStr body fail s).1.body = todoToJson t)) ∧
    (fail = true →
      (PATCH idStr body fail s).1 = respErr 400 ("Invalid todo ID") ∨
      (PATCH idStr body fail s).1 = respErr 400 ("Completed must be a boolean") ∨
      (PATCH idStr body fail s).1 = respErr 500 ("Failed to update todo")) ∧
    ((DELETE idStr fail s).1 = respErr 400 ("Invalid todo ID") ∨
      (DELETE idStr fail s).1 = respErr 500 ("Failed to delete todo") ∨
      (DELETE idStr fail s).1 =
        { status := 200, body := Json.obj [(("success"), Json.bool true)] }) ∧
    (fail = true →
      (DELETE idStr fail s).1 = respErr 400 ("Invalid todo ID") ∨
      (DELETE idStr fail s).1 = respErr 500 ("Failed to delete todo")) := by
  refine ⟨?_, ?_, ?_, ?_, ?_, ?_, ?_, ?_⟩
  · rcases GET_shape fail s with h | ⟨_, h⟩
    · exact Or.inl h
    · exact Or.inr h
  · intro hf
    subst hf
    rfl
  · rcases POST_shape body fail s with h | h | ⟨_, t, h⟩
    · exact Or.inl h
    · exact Or.inr (Or.inl h)
    · exact Or.inr (Or.inr ⟨by rw [h], t, by rw [h]⟩)
  · intro hf
    subst hf
    rcases POST_shape body true s with h | h | ⟨hcontra, _⟩
    · exact Or.inl h
    · exact Or.inr h
    · cases hcontra
  · rcases PATCH_shape idStr body fail s with h | h | h | ⟨_, t, h⟩
    · exact Or.inl h
    · exact Or.inr (Or.inl h)
    · exact Or.inr (Or.inr (Or.inl h))
    · exact Or.inr (Or.inr (Or.inr ⟨by rw [h], t, by rw [h]⟩))
  · intro hf
    subst hf
    rcases PATCH_shape idStr body true s with h | h | h | ⟨hcontra, _⟩
    · exact Or.inl h
    · exact Or.inr (Or.inl h)
    · exact Or.inr (Or.inr h)
    · cases hcontra
  · rcases DELETE_shape idStr fail s with h | h | ⟨_, h⟩
    · exact Or.inl h
    · exact Or.inr (Or.inl h)
    · exact Or.inr (Or.inr h)
  · intro hf
    subst hf
    rcases DELETE_shape idStr true s with h | h | ⟨hcontra, _⟩
    · exact Or.inl h
    · exact Or.inr h
    · cases hcontra

/-- C7 witness: the store-failure implications at a concrete call. -/
theorem C7_total_wellformed_witness :
    (GET true store0).1 = respErr 500 ("Failed to fetch todos") ∧
    ((POST (some (completedBody true)) true store0).1 = respErr 400 ("Title is required") ∨
     (POST (some (completedBody true)) true store0).1 = respErr 500 ("Failed to create todo")) ∧
    ((PATCH ("1") (some (completedBody true)) true store0).1 = respErr 400 ("Invalid todo ID") ∨
     (PATCH ("1") (some (completedBody true)) true store0).1 =
       respErr 400 ("Completed must be a boolean") ∨
     (PATCH ("1") (some (completedBody true)) true store0).1 =
       respErr 500 ("Failed to update todo")) ∧
    ((DELETE ("1") true store0).1 = respErr 400 ("Invalid todo ID") ∨
     (DELETE ("1") true store0).1 = respErr 500 ("Failed to delete todo")) :=
  ⟨(C7_total_wellformed true store0 (some (completedBody true)) ("1")).2.1 rfl,
   (C7_total_wellformed true store0 (some (completedBody true)) ("1")).2.2.2.1 rfl,
   (C7_total_wellformed true store0 (some (completedBody true)) ("1")).2.2.2.2.2.1 rfl,
   (C7_total_wellformed true store0 (some (completedBody true)) ("1")).2.2.2.2.2.2.2 rfl⟩

/-- Reachable states of the singleton module within one process: either
nothing is constructed yet, or exactly one client (numbered 0) exists,
retained in `globalThis` in development mode and in the module cache in
production mode. -/
def prismaInv (dev : Bool) (st : PrismaState) : Prop :=
  (st.nextInstance = 0 ∧ st.globalSlot = none ∧ st.moduleVal = none) ∨
  (st.nextInstance = 1 ∧
    ((dev = true ∧ st.globalSlot = some 0 ∧
        (st.moduleVal = none ∨ st.moduleVal = some 0)) ∨
     (dev = false ∧ st.globalSlot = none ∧ st.moduleVal = some 0)))

lemma accessPrisma_inv (dev : Bool) (st : PrismaState) (hinv : prismaInv dev st) :
    (accessPrisma dev st).1 = 0 ∧ prismaInv dev (accessPrisma dev st).2 := by
  rcases hinv with ⟨h0, hg, hm⟩ | ⟨h1, ⟨hdev, hg, hm | hm⟩ | ⟨hdev, hg, hm⟩⟩
  · cases dev with
    | true =>
      refine ⟨?_, Or.inr ⟨?_, Or.inl ⟨rfl, ?_, Or.inr ?_⟩⟩⟩ <;>
        simp [accessPrisma, evalModule, hg, hm, h0]
    | false =>
      refine ⟨?_, Or.inr ⟨?_, Or.inr ⟨rfl, ?_, ?_⟩⟩⟩ <;>
        simp [accessPrisma, evalModule, hg, hm, h0]
  · subst hdev
    refine ⟨?_, Or.inr ⟨?_, Or.inl ⟨rfl, ?_, Or.inr ?_⟩⟩⟩ <;>
      simp [accessPrisma, evalModule, hg, hm, h1]
  · subst hdev
    have hstate : (accessPrisma true st).2 = st := by simp [accessPrisma, hm]
    rw [hstate]
    exact ⟨by simp [accessPrisma, hm], Or.inr ⟨h1, Or.inl ⟨rfl, hg, Or.inr hm⟩⟩⟩
  · subst hdev
    have hstate : (accessPrisma false st).2 = st := by simp [accessPrisma, hm]
    rw [hstate]
    exact ⟨by simp [accessPrisma, hm], Or.inr ⟨h1, Or.inr ⟨rfl, hg, hm⟩⟩⟩

lemma runPrisma_inv (dev : Bool) (evs : List Ev) (st : PrismaState)
    (hinv : prismaInv dev st) (hprod : dev = false → Ev.reload ∉ evs) :
    (∀ x ∈ (runPrisma dev evs st).1, x = 0) ∧ prismaInv dev (runPrisma dev evs st).2 := by
  induction evs generalizing st with
  | nil => exact ⟨by simp [runPrisma], hinv⟩
  | cons e evs ih =>
    have hprod₂ : dev = false → Ev.reload ∉ evs := by
      intro h
      exact fun hc => hprod h (List.mem_cons_of_mem _ hc)
    cases e with
    | access =>
      have hacc := accessPrisma_inv dev st hinv
      have hrest := ih (accessPrisma dev st).2 hacc.2 hprod₂
      refine ⟨?_, by simpa [runPrisma] using hrest.2⟩
      intro x hx
      simp only [runPrisma, List.mem_cons] at hx
      rcases hx with rfl | hx
      · exact hacc.1
      · exact hrest.1 x hx
    | reload =>
      cases dev with
      | false => exact absurd (List.mem_cons_self _ _) (hprod rfl)
      | true =>
        have hinv₂ : prismaInv true (reloadModule st) := by
          rcases hinv with ⟨h0, hg, _⟩ | ⟨h1, ⟨_, hg, _⟩ | ⟨hdev, _, _⟩⟩
          · exact Or.inl ⟨h0, hg, rfl⟩
          · exact Or.inr ⟨h1, Or.inl ⟨rfl, hg, Or.inl rfl⟩⟩
          · cases hdev
        simpa [runPrisma] using ih (reloadModule st) hinv₂ hprod₂

/-- C8: the data-access handle is a process-wide singleton — within one
process, under any sequence of accesses and (development-mode) reloads,
at most one client is ever constructed and every access returns that
same first instance; in production mode reloads do not occur, and the
same single-instance contract holds. -/
theorem C8_singleton (dev : Bool) (evs : List Ev)
    (hprod : dev = false → Ev.reload ∉ evs) :
    (∀ x ∈ (runPrisma dev evs prismaInit).1, x = 0) ∧
    (runPrisma dev evs prismaInit).2.nextInstance ≤ 1 := by
  have h := runPrisma_inv dev evs prismaInit (Or.inl ⟨rfl, rfl, rfl⟩) hprod
  refine ⟨h.1, ?_⟩
  rcases h.2 with ⟨h0, _⟩ | ⟨h1, _⟩
  · rw [h0]
    exact Nat.zero_le 1
  · rw [h1]

/-- C8 witness: a development trace with a reload between two accesses
returns the same instance both times and constructs at most one client. -/
theorem C8_singleton_witness :
    (true = false → Ev.reload ∉ [Ev.access, Ev.reload, Ev.access]) ∧
    ((∀ x ∈ (runPrisma true [Ev.access, Ev.reload, Ev.access] prismaInit).1, x = 0) ∧
     (runPrisma true [Ev.access, Ev.reload, Ev.access] prismaInit).2.nextInstance ≤ 1) :=
  ⟨(by intro h; cases h),
   C8_singleton true [Ev.access, Ev.reload, Ev.access] (by intro h; cases h)⟩
